import Mathlib

/-!
Verification development for the WindWatts energy-production engine
(`app/power_curve/power_curve_manager.py`, `app/utils/validation.py`,
`app/config/model_config.py`).

Numeric floats are embedded as rationals (`ℚ`): every arithmetic step the
claims quantify over (sums, means, midpoints, scaling by `30`, `8760`,
`1e-5` jitter) is exact decimal arithmetic, which `ℚ` models exactly.
Possibly non-finite IEEE values (NaN/inf), which the jitter pass inspects
with `np.isfinite`, are embedded by the two-constructor type `FVal`.
Python exceptions are embedded as `Except PyErr`; a function that cannot
raise returns a plain value.  The external SciPy `CubicSpline` evaluator is
an oracle parameter `spl : List ℚ → List ℚ → ℚ → ℚ` (given the knot vectors
`x`, `y` it yields the fitted spline as a function); its documented
construction-time failure (knots not strictly increasing, or length
mismatch) is modeled by the explicit guard in `run_cubic`.
-/

deriving instance DecidableEq for Except

namespace Windwatts

/-- `str.lower()` on a column name, written over the character list so that
concrete instances evaluate. -/
def strLower (s : String) : String := String.mk (s.data.map Char.toLower)

/-- Error taxonomy of §7 of the design.  `valueError`, `zeroDivisionError`
and `otherError` stand for the raw Python exception classes that the
`except` clauses of `estimation_quantiles_SWI` discriminate on; the
remaining constructors name the specific `ValueError`/`KeyError` sites of
the source by their role. -/
inductive PyErr where
  | invalidArgument
  | missingColumn
  | schemaMismatch
  | unknownSchema
  | unsupportedOperation
  | noData
  | configurationError
  | valueError
  | zeroDivisionError
  | otherError
deriving DecidableEq

/-- The `encoding` field of a temporal schema's `column_config`
(`model_config.py`). -/
inductive EncodingTag where
  | datetime_full
  | mohr_encoded
deriving DecidableEq

/-- `column_config` entry of `TEMPORAL_SCHEMAS` (`model_config.py`). -/
structure ColumnConfig where
  temporal_columns : List String
  probability_columns : List String
  temporal_dimensions : List String
  encoding : Option EncodingTag
deriving DecidableEq

/-- One entry of `TEMPORAL_SCHEMAS`: its `column_config` plus the
`processing.use_swi` flag (the only processing field the engine reads). -/
structure TemporalSchemaCfg where
  column_config : ColumnConfig
  use_swi : Bool
deriving DecidableEq

/-- The four temporal schemas of `model_config.py:TEMPORAL_SCHEMAS`. -/
def TEMPORAL_SCHEMAS : List (String × TemporalSchemaCfg) :=
  [ ("full_hourly",
      { column_config :=
          { temporal_columns := ["time"]
            probability_columns := []
            temporal_dimensions := ["year", "month", "day", "hour"]
            encoding := some .datetime_full }
        use_swi := false }),
    ("aggregated_mohr",
      { column_config :=
          { temporal_columns := ["mohr", "year"]
            probability_columns := []
            temporal_dimensions := ["month", "hour", "year"]
            encoding := some .mohr_encoded }
        use_swi := false }),
    ("quantile_yearly",
      { column_config :=
          { temporal_columns := ["year"]
            probability_columns := ["probability"]
            temporal_dimensions := ["year"]
            encoding := none }
        use_swi := true }),
    ("quantile_atemporal",
      { column_config :=
          { temporal_columns := []
            probability_columns := ["probability"]
            temporal_dimensions := []
            encoding := none }
        use_swi := false }) ]

/-- `MODEL_CONFIG`, restricted to the one field the engine reads per model:
its `schema` name. -/
def MODEL_CONFIG : List (String × String) :=
  [ ("era5-quantiles", "quantile_yearly"),
    ("wtk-timeseries", "aggregated_mohr"),
    ("ensemble-quantiles", "quantile_atemporal"),
    ("era5-timeseries", "full_hourly") ]

/-- `PowerCurveManager._get_temporal_schema_config`: raises `ValueError`
for a schema name absent from `TEMPORAL_SCHEMAS`. -/
def get_temporal_schema_config (schema : String) : Except PyErr TemporalSchemaCfg :=
  match TEMPORAL_SCHEMAS.lookup schema with
  | some cfg => .ok cfg
  | none => .error .valueError

/-- `PowerCurveManager._is_timeseries_schema` (the Python function returns
`True` or falls through to `None`, i.e. falsy). -/
def is_timeseries_schema (cfg : TemporalSchemaCfg) : Bool :=
  cfg.column_config.temporal_columns.contains "time" ||
    cfg.column_config.temporal_columns.contains "mohr"

/-- `PowerCurveManager._is_quantile_schema`. -/
def is_quantile_schema (cfg : TemporalSchemaCfg) : Bool :=
  cfg.column_config.probability_columns.contains "probability"

/-- `PowerCurveManager._has_year_dimension`. -/
def has_year_dimension (cfg : TemporalSchemaCfg) : Bool :=
  cfg.column_config.temporal_columns.contains "year"

/-- `np.linspace a b n`: `n` evenly spaced points from `a` to `b`
inclusive. -/
def linspace (a b : ℚ) (n : ℕ) : List ℚ :=
  if n = 0 then []
  else if n = 1 then [a]
  else (List.range n).map (fun (i : ℕ) => a + (b - a) * (i : ℚ) / ((n : ℚ) - 1))

/-- Index bookkeeping for `np.argmin`: fold over the remaining list keeping
the value and index of the least element seen so far (first occurrence on
ties, as `np.argmin` does). -/
def argminGo : List ℚ → ℚ → ℕ → ℕ → ℕ
  | [], _, best, _ => best
  | x :: xs, bv, best, i =>
      if x < bv then argminGo xs x i (i + 1) else argminGo xs bv best (i + 1)

/-- `np.argmin` over a list of rationals (0 on the empty list, like the
guarded uses in the source where the array is nonempty). -/
def argminIdx : List ℚ → ℕ
  | [] => 0
  | x :: xs => argminGo xs x 0 1

/-- `PowerCurveManager.find_inverse`: for each target `t` in `y_hat`, pick
`x_smooth[argmin |y_smooth - t|]`. -/
def find_inverse (x_smooth y_smooth y_hat : List ℚ) : List ℚ :=
  y_hat.map (fun t => x_smooth.getD (argminIdx (y_smooth.map (fun y => |y - t|))) 0)

/-- Boolean strict ascending chain test, the `CubicSpline` requirement that
its knot vector `x` be strictly increasing. -/
def strictlyInc : List ℚ → Bool
  | [] => true
  | [_] => true
  | a :: b :: rest => decide (a < b) && strictlyInc (b :: rest)

/-- `PowerCurveManager.run_cubic`, with the SciPy spline as the oracle
`spl`.  The source first forms the boundary finite differences from
`x[0], x[1], x[-2], x[-1]` and `y` (raising `IndexError` — not a
`ValueError` — when either array has fewer than 2 entries; float division
by zero does not raise), then calls `CubicSpline`, which raises
`ValueError` when `x` is not strictly increasing or `y` has a different
length, then samples the spline on `np.linspace(x[0], x[-1], M1)` and
inverts with `find_inverse`. -/
def run_cubic (spl : List ℚ → List ℚ → ℚ → ℚ) (x y probs_new : List ℚ)
    (M1 : ℕ) : Except PyErr (List ℚ × List ℚ) :=
  if x.length < 2 ∨ y.length < 2 then .error .otherError
  else if ¬ (strictlyInc x = true ∧ x.length = y.length) then .error .valueError
  else
    let f := spl x y
    let x_smooth := linspace (x.headD 0) (x.getLastD 0) M1
    let y_smooth := x_smooth.map f
    .ok (find_inverse x_smooth y_smooth probs_new, probs_new)

/-- A float as the jitter pass sees it: a finite value (embedded exactly as
a rational) or a non-finite one (NaN/±inf), on which `np.isfinite` is
false. -/
inductive FVal where
  | fin (val : ℚ)
  | nonfin
deriving DecidableEq

/-- `np.isfinite`. -/
def FVal.isFiniteV : FVal → Bool
  | .fin _ => true
  | .nonfin => false

/-- The body of one iteration of the `_jitter_nonincreasing` loop: given
the (already corrected) predecessor and the current entry, skip when either
is non-finite, else bump the current entry to `predecessor + eps` when it
is `≤` the predecessor. -/
def jitterStep (eps : ℚ) : FVal → FVal → FVal
  | .fin p, .fin v => if v ≤ p then .fin (p + eps) else .fin v
  | _, v => v

/-- The `for i in range(1, q.size)` loop of `_jitter_nonincreasing`,
threading the corrected predecessor left to right. -/
def jitterAux (eps : ℚ) : FVal → List FVal → List FVal
  | _, [] => []
  | prev, x :: xs =>
      let xc := jitterStep eps prev x
      xc :: jitterAux eps xc xs

/-- `PowerCurveManager._jitter_nonincreasing` (the first entry is never
modified). -/
def jitter_nonincreasing (eps : ℚ) (q : List FVal) : List FVal :=
  match q with
  | [] => []
  | x :: xs => x :: jitterAux eps x xs

/-- Extract the rational of a finite value (`0` for non-finite; used only
on all-finite lists). -/
def FVal.toQ : FVal → ℚ
  | .fin v => v
  | .nonfin => 0

/-- `_jitter_nonincreasing` specialised to an all-finite (rational) input,
as used inside `estimation_quantiles_SWI` with `eps = 1e-5`. -/
def jitterFin (q : List ℚ) : List ℚ :=
  (jitter_nonincreasing (1e-5) (q.map FVal.fin)).map FVal.toQ

/-- `PowerCurveManager.estimation_quantiles_SWI`.  The first `except`
clause (on `ValueError`/`ZeroDivisionError`) falls through to a single
jittered retry; the second (any other `Exception`) and a failing retry both
return the default `(zeros M2, linspace 0 1 M2)`.  Every control path
returns normally, so the embedding is a total function. -/
def estimation_quantiles_SWI (spl : List ℚ → List ℚ → ℚ → ℚ)
    (quantiles probs : List ℚ) (M1 M2 : ℕ) : List ℚ × List ℚ :=
  let probs_new := linspace 0 1 M2
  let quantiles_new_default := List.replicate M2 (0 : ℚ)
  match run_cubic spl quantiles probs probs_new M1 with
  | .ok res => res
  | .error .valueError | .error .zeroDivisionError =>
      match run_cubic spl (jitterFin quantiles) probs probs_new M1 with
      | .ok res => res
      | .error _ => (quantiles_new_default, probs_new)
  | .error _ => (quantiles_new_default, probs_new)

/-- How many times `estimation_quantiles_SWI` invokes `run_cubic` on the
given input: once, plus one retry exactly when the first attempt raised
`ValueError` or `ZeroDivisionError`. -/
def swiCubicCalls (spl : List ℚ → List ℚ → ℚ → ℚ)
    (quantiles probs : List ℚ) (M1 M2 : ℕ) : ℕ :=
  match run_cubic spl quantiles probs (linspace 0 1 M2) M1 with
  | .ok _ => 1
  | .error .valueError | .error .zeroDivisionError => 2
  | .error _ => 1

/-- `PowerCurveManager._quantiles_to_kw_midpoints` on the two column
vectors of `df_sorted` (already sorted by probability): optional SWI
smoothing, then midpoints `(qs.shift(-1) + qs) / 2` with the trailing NaN
dropped, then the power curve applied to each midpoint.  Each output pair
is one row `(ws_col, ws_col_kw)` of `mid_df`. -/
def quantiles_to_kw_midpoints (spl : List ℚ → List ℚ → ℚ → ℚ)
    (power_curve : ℚ → ℚ) (use_swi_flag : Bool)
    (probs quants : List ℚ) : List (ℚ × ℚ) :=
  let q_est :=
    if use_swi_flag then
      (estimation_quantiles_SWI spl quants probs 1000 501).1
    else quants
  let midpoints := List.zipWith (fun a b => (b + a) / 2) q_est q_est.tail
  midpoints.map (fun m => (m, power_curve m))

/-!
### Aggregation layer

The three aggregators consume, for one fixed height, the annotated
production table returned by `compute_energy_production_df`: per row the
temporal keys plus the `windspeed_{h}m` value and its derived
`windspeed_{h}m_kw` value.  `ProdRow` is such a row (for schemas without a
`year` or `month` column the corresponding field is simply never read).
-/

/-- One row of the annotated production table, restricted to the fixed
height the aggregators operate on. -/
structure ProdRow where
  year : ℤ
  month : ℤ
  ws : ℚ
  kw : ℚ
deriving DecidableEq

/-- One row of `prepare_yearly_production_df`'s result:
`["year", "Average wind speed (m/s)", "kWh produced"]`. -/
structure YearlyRow where
  year : Option ℤ
  avgWs : ℚ
  kwh : ℚ
deriving DecidableEq

/-- pandas column `mean`: sum over length. -/
def meanQ (l : List ℚ) : ℚ := l.sum / (l.length : ℚ)

/-- Ascending sort of integers (the order pandas `groupby` lists its group
keys in). -/
def intsAsc (l : List ℤ) : List ℤ := List.insertionSort (fun a b => a ≤ b) l

/-- `df.groupby("year")`: the distinct years in ascending order, each with
the rows belonging to it (in their original order). -/
def groupByYear (rows : List ProdRow) : List (ℤ × List ProdRow) :=
  (intsAsc (rows.map (fun r => r.year)).dedup).map
    (fun y => (y, rows.filter (fun r => r.year == y)))

/-- `df.groupby("month")`, as `groupByYear`. -/
def groupByMonth (rows : List ProdRow) : List (ℤ × List ProdRow) :=
  (intsAsc (rows.map (fun r => r.month)).dedup).map
    (fun m => (m, rows.filter (fun r => r.month == m)))

/-- The per-year `kwh` of the timeseries branch of
`prepare_yearly_production_df`: `sum(kw) * 30` under `mohr_encoded`,
`sum(kw)` under `datetime_full`, and a raised `ValueError` for any other
encoding value. -/
def yearly_kwh_for_encoding (enc : Option EncodingTag) (group : List ProdRow) :
    Except PyErr ℚ :=
  match enc with
  | some .mohr_encoded => .ok ((group.map (fun r => r.kw)).sum * 30)
  | some .datetime_full => .ok ((group.map (fun r => r.kw)).sum)
  | none => .error .valueError

/-- The `for year, group in work.groupby("year")` loop of the timeseries
branch, raising out of the loop on the first bad encoding. -/
def yearlyTimeseriesRows (enc : Option EncodingTag) :
    List (ℤ × List ProdRow) → Except PyErr (List YearlyRow)
  | [] => .ok []
  | (y, g) :: rest =>
      match yearly_kwh_for_encoding enc g with
      | .error e => .error e
      | .ok kwh =>
          match yearlyTimeseriesRows enc rest with
          | .error e => .error e
          | .ok tl =>
              .ok ({ year := some y, avgWs := meanQ (g.map (fun r => r.ws)),
                     kwh := kwh } :: tl)

/-- Comparison on the `"Average wind speed (m/s)"` column, the sort key of
`res.sort_values(...)` in `prepare_yearly_production_df`. -/
def wsLE (a b : YearlyRow) : Prop := a.avgWs ≤ b.avgWs

instance : DecidableRel wsLE := fun a b =>
  inferInstanceAs (Decidable (a.avgWs ≤ b.avgWs))

instance : IsTotal YearlyRow wsLE := ⟨fun a b => le_total a.avgWs b.avgWs⟩

instance : IsTrans YearlyRow wsLE := ⟨fun _ _ _ h1 h2 => le_trans h1 h2⟩

/-- The tail of `prepare_yearly_production_df`:
`pd.DataFrame(res_list)` followed by `sort_values("Average wind speed (m/s)")`.
When `res_list` is empty the frame has no columns at all and `sort_values`
raises a `KeyError` (embedded as `otherError`); otherwise the rows are
sorted ascending by average wind speed. -/
def sortFinish (resList : List YearlyRow) : Except PyErr (List YearlyRow) :=
  if resList.isEmpty then .error .otherError
  else .ok (List.insertionSort wsLE resList)

/-- `PowerCurveManager.prepare_yearly_production_df`, taking the annotated
production table (the `prod_df` computed by `compute_energy_production_df`)
together with its schema name.  Timeseries schemas: group by year, mean
wind speed, encoding-dependent kWh.  Year-dimensioned quantile schemas:
group by year, `mean(kw) * 8760`.  Atemporal quantile schemas: a single
pseudo-row with `year = None` (the empty input returns the empty frame
before the final sort).  The dropped `winddirection` columns of the source
have no counterpart in `ProdRow`. -/
def prepare_yearly_production_df (schema : String) (prod : List ProdRow) :
    Except PyErr (List YearlyRow) :=
  match get_temporal_schema_config schema with
  | .error e => .error e
  | .ok cfg =>
    if is_timeseries_schema cfg then
      match yearlyTimeseriesRows cfg.column_config.encoding (groupByYear prod) with
      | .error e => .error e
      | .ok resList => sortFinish resList
    else if is_quantile_schema cfg then
      if has_year_dimension cfg then
        sortFinish ((groupByYear prod).map (fun yg =>
          { year := some yg.1
            avgWs := meanQ (yg.2.map (fun r => r.ws))
            kwh := meanQ (yg.2.map (fun r => r.kw)) * 8760 }))
      else
        if prod.isEmpty then .ok []
        else
          sortFinish [{ year := none
                        avgWs := meanQ (prod.map (fun r => r.ws))
                        kwh := meanQ (prod.map (fun r => r.kw)) * 8760 }]
    else sortFinish []

/-- Round half to even, the rounding mode of `pandas`/`numpy` `.round()`
(used on the `"kWh produced"` column before `astype(int)`). -/
def roundHalfEven (q : ℚ) : ℤ :=
  let f := ⌊q⌋
  let r := q - (f : ℚ)
  if r < 1 / 2 then f
  else if 1 / 2 < r then f + 1
  else if f % 2 = 0 then f else f + 1

/-- Comma-group a least-significant-first digit list into blocks of three,
as the `","` option of Python's format mini-language does. -/
def commaRev : List Char → List Char
  | [] => []
  | d :: ds =>
      if ds.length ≤ 2 then d :: ds
      else (d :: ds.take 2) ++ [','] ++ commaRev (ds.drop 2)
termination_by l => l.length
decreasing_by
  simp only [List.length_cons, List.length_drop]
  omega

/-- Python's `"{:,.2f}".format` on an exactly represented value: round to
two decimal places (half to even), render with a comma-grouped integer
part and exactly two fractional digits. -/
def format_two_dec (q : ℚ) : String :=
  let n := roundHalfEven (q * 100)
  let a := n.natAbs
  let intStr := String.mk ((commaRev ((Nat.toDigits 10 (a / 100)).reverse)).reverse)
  let fracStr := String.mk
    [Char.ofNat (48 + a % 100 / 10), Char.ofNat (48 + a % 100 % 10)]
  (if n < 0 then "-" else "") ++ intStr ++ "." ++ fracStr

/-- One formatted row of the summary dict: the `year` field (`None` for the
synthesized average row), the `"Average wind speed (m/s)"` text and the
integer `"kWh produced"`. -/
structure SummaryRow where
  year : Option ℤ
  avgWsText : String
  kwhInt : ℤ
deriving DecidableEq

/-- Formatting applied to each summary row: `fmt_year`, `"{:,.2f}"` on the
wind speed, `.round().astype(int)` on the kWh. -/
def formatSummaryRow (r : YearlyRow) : SummaryRow :=
  { year := r.year, avgWsText := format_two_dec r.avgWs,
    kwhInt := roundHalfEven r.kwh }

/-- `PowerCurveManager.calculate_energy_production_summary` on the
annotated production table: the yearly frame (already sorted by average
wind speed), `{}` when it is empty, else its first row, a synthesized
column-wise-mean row (whose `year` becomes `None` through the
`drop(columns=["year"])` / concat / `fmt_year` dance) and its last row,
labeled and formatted. -/
def calculate_energy_production_summary (schema : String) (prod : List ProdRow) :
    Except PyErr (List (String × SummaryRow)) :=
  match prepare_yearly_production_df schema prod with
  | .error e => .error e
  | .ok yearly =>
    if yearly.isEmpty then .ok []
    else
      let avgRow : YearlyRow :=
        { year := none
          avgWs := meanQ (yearly.map (fun r => r.avgWs))
          kwh := meanQ (yearly.map (fun r => r.kwh)) }
      let dummy : YearlyRow := { year := none, avgWs := 0, kwh := 0 }
      .ok [ ("Lowest year", formatSummaryRow (yearly.headD dummy)),
            ("Average year", formatSummaryRow avgRow),
            ("Highest year", formatSummaryRow (yearly.getLastD dummy)) ]

/-- `calendar.month_abbr` (index 0 is the empty string). -/
def month_abbr : List String :=
  ["", "Jan", "Feb", "Mar", "Apr", "May", "Jun", "Jul", "Aug", "Sep", "Oct",
   "Nov", "Dec"]

/-- `calendar.month_abbr[int(x)]` for the month keys `1..12` produced by
the temporal normalizer. -/
def monthAbbrOf (m : ℤ) : String := month_abbr.getD m.toNat ""

/-- One formatted row of the monthly dict. -/
structure MonthlyRow where
  avgWsText : String
  kwhInt : ℤ
deriving DecidableEq

/-- `PowerCurveManager.calculate_monthly_energy_production` on the
annotated production table: rejects non-timeseries schemas
(`UnsupportedOperation`), groups by month, counts the distinct years
(`NoData` when zero), scales the summed kW by `30 / n_years`
(`mohr_encoded`) or `1 / n_years` (`datetime_full`), then keys by
three-letter month abbreviation with the usual rounding/formatting. -/
def calculate_monthly_energy_production (schema : String) (prod : List ProdRow) :
    Except PyErr (List (String × MonthlyRow)) :=
  match get_temporal_schema_config schema with
  | .error e => .error e
  | .ok cfg =>
    if ¬ is_timeseries_schema cfg then .error .unsupportedOperation
    else
      let groups := groupByMonth prod
      let nYears := (prod.map (fun r => r.year)).dedup.length
      if nYears = 0 then .error .noData
      else
        match cfg.column_config.encoding with
        | some .mohr_encoded =>
            .ok (groups.map (fun mg =>
              (monthAbbrOf mg.1,
               { avgWsText := format_two_dec (meanQ (mg.2.map (fun r => r.ws)))
                 kwhInt := roundHalfEven
                   ((mg.2.map (fun r => r.kw)).sum * (30 / (nYears : ℚ))) })))
        | some .datetime_full =>
            .ok (groups.map (fun mg =>
              (monthAbbrOf mg.1,
               { avgWsText := format_two_dec (meanQ (mg.2.map (fun r => r.ws)))
                 kwhInt := roundHalfEven
                   ((mg.2.map (fun r => r.kw)).sum / (nYears : ℚ)) })))
        | none => .error .valueError

/-!
### Temporal normalizer and the compute-entry gate

`_add_temporal_dimensions` is modeled on a typed table carrying the column
name set (for the presence checks) plus the parsed `time` column (a
datetime decomposes into integer year/month/day/hour fields) and the
numeric `mohr` column.  `compute_energy_production_df` is modeled up to its
dispatch point: the None/empty passthrough, the heights check, the
windspeed-column check, the schema lookup and the schema validation; the
annotated table it then builds (power-curve application and midpoint
binning, modeled above by `quantiles_to_kw_midpoints`) is summarized by the
`annotated` tag carrying the validated frame and schema name, which is all
the claims about the gate inspect.
-/

/-- A parsed `pd.to_datetime` value, decomposed into the integer attributes
the normalizer reads. -/
structure TimeVal where
  year : ℤ
  month : ℤ
  day : ℤ
  hour : ℤ
deriving DecidableEq

/-- A table as `_add_temporal_dimensions` sees it: its column names plus
the `time` and `mohr` columns (empty when the column is absent) and any
already-present derived columns. -/
structure NTable where
  cols : List String
  timeCol : List TimeVal
  mohrCol : List ℤ
  yearCol : List ℤ
  monthCol : List ℤ
  dayCol : List ℤ
  hourCol : List ℤ
deriving DecidableEq

/-- Add a column name if not already present (assigning `result[col]` in
pandas). -/
def addCol (cols : List String) (c : String) : List String :=
  if cols.contains c then cols else cols ++ [c]

/-- `PowerCurveManager._add_temporal_dimensions`.  Returns the table
unchanged when the schema declares no temporal dimensions or all of them
are already present (case-insensitive); otherwise derives them from the
schema's encoding: `datetime_full` from the parsed `time` column,
`mohr_encoded` by `month = mohr // 100`, `hour = mohr % 100` (Python floor
division and nonnegative-remainder modulo), and raises for any other
encoding value. -/
def add_temporal_dimensions (schema : String) (df : NTable) :
    Except PyErr NTable :=
  match get_temporal_schema_config schema with
  | .error e => .error e
  | .ok cfg =>
    let dims := cfg.column_config.temporal_dimensions
    if dims.isEmpty then .ok df
    else if dims.all (fun c => (df.cols.map strLower).contains c) then .ok df
    else
      match cfg.column_config.encoding with
      | some .datetime_full =>
          .ok { df with
                cols := ((dims.filter
                  (fun c => ["year", "month", "hour", "day"].contains c)).foldl
                    addCol df.cols)
                yearCol := if dims.contains "year" then
                    df.timeCol.map TimeVal.year else df.yearCol
                monthCol := if dims.contains "month" then
                    df.timeCol.map TimeVal.month else df.monthCol
                hourCol := if dims.contains "hour" then
                    df.timeCol.map TimeVal.hour else df.hourCol
                dayCol := if dims.contains "day" then
                    df.timeCol.map TimeVal.day else df.dayCol }
      | some .mohr_encoded =>
          .ok { df with
                cols := ((dims.filter
                  (fun c => ["month", "hour"].contains c)).foldl addCol df.cols)
                monthCol := if dims.contains "month" then
                    df.mohrCol.map (fun v => Int.fdiv v 100) else df.monthCol
                hourCol := if dims.contains "hour" then
                    df.mohrCol.map (fun v => Int.emod v 100) else df.hourCol }
      | none => .error .configurationError

/-- `validation.validate_data_with_temporal_schema`, which only reads the
column names of the frame.  An unknown schema name defaults to the empty
config (`TEMPORAL_SCHEMAS.get(schema, {})`).  Raises `schemaMismatch`
(`ValueError` in the source) when a required temporal/probability column is
missing, or when a schema without temporal columns finds any of
`year/month/day/hour/time/mohr` in the frame. -/
def validate_data_with_temporal_schema (cols : List String) (schema : String) :
    Except PyErr Unit :=
  let cc :=
    match TEMPORAL_SCHEMAS.lookup schema with
    | some cfg => cfg.column_config
    | none =>
        { temporal_columns := [], probability_columns := [],
          temporal_dimensions := [], encoding := none }
  let dfCols := cols.map strLower
  let required := cc.temporal_columns ++ cc.probability_columns
  if required.any (fun c => !(dfCols.contains (strLower c))) then
    .error .schemaMismatch
  else if cc.temporal_columns.isEmpty &&
      (["year", "month", "day", "hour", "time", "mohr"].any
        (fun c => dfCols.contains c)) then
    .error .schemaMismatch
  else .ok ()

/-- A wind-speed frame as the entry gate of
`compute_energy_production_df` sees it: its column names and row count
(`df.empty` is `nrows = 0`). -/
structure PyDF where
  cols : List String
  nrows : ℕ
deriving DecidableEq

/-- `f"windspeed_{height}m"`. -/
def wsColName (height : ℤ) : String := "windspeed_" ++ toString height ++ "m"

/-- What `compute_energy_production_df` hands back: the untouched input for
a `None`/empty frame (the Python function returns `df` itself there, not a
`(df, schema)` pair), or the validated frame tagged with its schema name
for the annotated-production branches. -/
inductive ComputeResult where
  | passthrough (df : Option PyDF)
  | annotated (df : PyDF) (schema : String)
deriving DecidableEq

/-- The entry gate of `PowerCurveManager.compute_energy_production_df`
(a scalar `heights` argument is wrapped into a singleton list before the
emptiness check, so `heights` is a list here): `None`/empty passthrough,
`InvalidArgument` for empty heights, `MissingColumn` (`KeyError`) for an
absent `windspeed_{h}m` column, `ValueError` for an unknown model name,
then schema validation. -/
def compute_energy_production_df (df : Option PyDF) (heights : List ℤ)
    (model_name : String) : Except PyErr ComputeResult :=
  match df with
  | none => .ok (.passthrough none)
  | some d =>
    if d.nrows = 0 then .ok (.passthrough (some d))
    else if heights.isEmpty then .error .invalidArgument
    else
      let ws_cols := heights.map wsColName
      if ws_cols.any (fun c => !(d.cols.contains c)) then .error .missingColumn
      else
        match MODEL_CONFIG.lookup model_name with
        | none => .error .valueError
        | some schema =>
          match validate_data_with_temporal_schema d.cols schema with
          | .error e => .error e
          | .ok _ => .ok (.annotated d schema)

/-- The finite entries of a float list, in order (`q[np.isfinite(q)]`). -/
def finVals (l : List FVal) : List ℚ :=
  l.filterMap (fun v => match v with | .fin q => some q | .nonfin => none)

/-!
### Shared lemmas
-/

lemma yearlyTimeseriesRows_mohr (groups : List (ℤ × List ProdRow)) :
    yearlyTimeseriesRows (some .mohr_encoded) groups =
      .ok (groups.map (fun yg =>
        { year := some yg.1, avgWs := meanQ (yg.2.map (fun r => r.ws)),
          kwh := (yg.2.map (fun r => r.kw)).sum * 30 })) := by
  induction groups with
  | nil => rfl
  | cons hd tl ih =>
      obtain ⟨y, g⟩ := hd
      simp [yearlyTimeseriesRows, yearly_kwh_for_encoding, ih]

lemma yearlyTimeseriesRows_datetime (groups : List (ℤ × List ProdRow)) :
    yearlyTimeseriesRows (some .datetime_full) groups =
      .ok (groups.map (fun yg =>
        { year := some yg.1, avgWs := meanQ (yg.2.map (fun r => r.ws)),
          kwh := (yg.2.map (fun r => r.kw)).sum })) := by
  induction groups with
  | nil => rfl
  | cons hd tl ih =>
      obtain ⟨y, g⟩ := hd
      simp [yearlyTimeseriesRows, yearly_kwh_for_encoding, ih]

lemma sortFinish_ok_of_ne_nil {l : List YearlyRow} (h : l ≠ []) :
    sortFinish l = .ok (List.insertionSort wsLE l) := by
  simp [sortFinish, h]

lemma sortFinish_ok_inv {l s : List YearlyRow} (h : sortFinish l = .ok s) :
    l ≠ [] ∧ s = List.insertionSort wsLE l := by
  by_cases he : l = []
  · subst he; simp [sortFinish] at h
  · refine ⟨he, ?_⟩
    rw [sortFinish_ok_of_ne_nil he] at h
    exact ((Except.ok.injEq _ _).mp h).symm

lemma mem_of_sortFinish_ok {a : YearlyRow} {l s : List YearlyRow}
    (h : sortFinish l = .ok s) (ha : a ∈ l) : a ∈ s := by
  obtain ⟨-, rfl⟩ := sortFinish_ok_inv h
  exact (List.perm_insertionSort wsLE l).mem_iff.mpr ha

lemma sorted_of_sortFinish_ok {l s : List YearlyRow}
    (h : sortFinish l = .ok s) : List.Pairwise wsLE s := by
  obtain ⟨-, rfl⟩ := sortFinish_ok_inv h
  exact List.sorted_insertionSort wsLE l

lemma mem_groupByYear_ne_nil {y : ℤ} {g prod : List ProdRow}
    (h : (y, g) ∈ groupByYear prod) : groupByYear prod ≠ [] :=
  List.ne_nil_of_mem h

/-!
### Claims
-/

/-- **C1.** For every annotated production table and fixed height, the
yearly aggregator computes each group's kWh by encoding: for the
`mohr_encoded` timeseries schema, `kwh = sum(kw) * 30`; for the
`datetime_full` timeseries schema, `kwh = sum(kw)`; for the quantile
schemas (year-grouped or atemporal), `kwh = mean(kw) * 8760` over the
midpoint bins. -/
theorem c1_yearly_kwh_by_encoding (prod : List ProdRow) (y : ℤ)
    (g : List ProdRow) (hg : (y, g) ∈ groupByYear prod) :
    (∃ ys, prepare_yearly_production_df "aggregated_mohr" prod = .ok ys ∧
       ∃ r ∈ ys, r.year = some y ∧ r.kwh = (g.map (fun r => r.kw)).sum * 30) ∧
    (∃ ys, prepare_yearly_production_df "full_hourly" prod = .ok ys ∧
       ∃ r ∈ ys, r.year = some y ∧ r.kwh = (g.map (fun r => r.kw)).sum) ∧
    (∃ ys, prepare_yearly_production_df "quantile_yearly" prod = .ok ys ∧
       ∃ r ∈ ys, r.year = some y ∧ r.kwh = meanQ (g.map (fun r => r.kw)) * 8760) ∧
    (prod ≠ [] →
       ∃ r, prepare_yearly_production_df "quantile_atemporal" prod = .ok [r] ∧
         r.year = none ∧ r.kwh = meanQ (prod.map (fun r => r.kw)) * 8760) := by
  have hne := mem_groupByYear_ne_nil hg
  refine ⟨?_, ?_, ?_, ?_⟩
  · have hred : prepare_yearly_production_df "aggregated_mohr" prod =
        match yearlyTimeseriesRows (some .mohr_encoded) (groupByYear prod) with
        | .error e => .error e
        | .ok resList => sortFinish resList := rfl
    rw [hred, yearlyTimeseriesRows_mohr]
    have hmapne : (groupByYear prod).map (fun yg =>
        ({ year := some yg.1, avgWs := meanQ (yg.2.map (fun r => r.ws)),
           kwh := (yg.2.map (fun r => r.kw)).sum * 30 } : YearlyRow)) ≠ [] := by
      simpa using hne
    refine ⟨_, sortFinish_ok_of_ne_nil hmapne, ?_⟩
    refine ⟨_, mem_of_sortFinish_ok (sortFinish_ok_of_ne_nil hmapne)
      (List.mem_map_of_mem _ hg), rfl, rfl⟩
  · have hred : prepare_yearly_production_df "full_hourly" prod =
        match yearlyTimeseriesRows (some .datetime_full) (groupByYear prod) with
        | .error e => .error e
        | .ok resList => sortFinish resList := rfl
    rw [hred, yearlyTimeseriesRows_datetime]
    have hmapne : (groupByYear prod).map (fun yg =>
        ({ year := some yg.1, avgWs := meanQ (yg.2.map (fun r => r.ws)),
           kwh := (yg.2.map (fun r => r.kw)).sum } : YearlyRow)) ≠ [] := by
      simpa using hne
    refine ⟨_, sortFinish_ok_of_ne_nil hmapne, ?_⟩
    refine ⟨_, mem_of_sortFinish_ok (sortFinish_ok_of_ne_nil hmapne)
      (List.mem_map_of_mem _ hg), rfl, rfl⟩
  · have hred : prepare_yearly_production_df "quantile_yearly" prod =
        sortFinish ((groupByYear prod).map (fun yg =>
          { year := some yg.1
            avgWs := meanQ (yg.2.map (fun r => r.ws))
            kwh := meanQ (yg.2.map (fun r => r.kw)) * 8760 })) := rfl
    rw [hred]
    have hmapne : (groupByYear prod).map (fun yg =>
        ({ year := some yg.1, avgWs := meanQ (yg.2.map (fun r => r.ws)),
           kwh := meanQ (yg.2.map (fun r => r.kw)) * 8760 } : YearlyRow)) ≠ [] := by
      simpa using hne
    refine ⟨_, sortFinish_ok_of_ne_nil hmapne, ?_⟩
    refine ⟨_, mem_of_sortFinish_ok (sortFinish_ok_of_ne_nil hmapne)
      (List.mem_map_of_mem _ hg), rfl, rfl⟩
  · intro hprodne
    have hred : prepare_yearly_production_df "quantile_atemporal" prod =
        (if prod.isEmpty then .ok [] else
          sortFinish [{ year := none
                        avgWs := meanQ (prod.map (fun r => r.ws))
                        kwh := meanQ (prod.map (fun r => r.kw)) * 8760 }]) := rfl
    rw [hred]
    simp only [List.isEmpty_eq_true, hprodne, if_false]
    refine ⟨{ year := none, avgWs := meanQ (prod.map (fun r => r.ws)),
              kwh := meanQ (prod.map (fun r => r.kw)) * 8760 }, ?_, rfl, rfl⟩
    rw [sortFinish_ok_of_ne_nil (by simp)]
    rfl

lemma zipWith_self_tail_get? (f : ℚ → ℚ → ℚ) :
    ∀ (q : List ℚ) (i : ℕ) (a b : ℚ), q.get? i = some a →
      q.get? (i + 1) = some b → (List.zipWith f q q.tail).get? i = some (f a b) := by
  intro q
  induction q with
  | nil => intro i a b ha _; simp at ha
  | cons x xs ih =>
      intro i a b ha hb
      cases xs with
      | nil => cases i <;> simp at hb
      | cons y ys =>
          cases i with
          | zero =>
              obtain rfl : x = a := by simpa using ha
              obtain rfl : y = b := by simpa using hb
              rfl
          | succ i =>
              simp only [List.get?] at ha hb
              simpa using ih i a b ha hb

lemma jitterAux_length (eps : ℚ) :
    ∀ (xs : List FVal) (prev : FVal), (jitterAux eps prev xs).length = xs.length := by
  intro xs
  induction xs with
  | nil => intro prev; rfl
  | cons x xs ih => intro prev; simp [jitterAux, ih]

lemma jitter_length (eps : ℚ) (q : List FVal) :
    (jitter_nonincreasing eps q).length = q.length := by
  cases q with
  | nil => rfl
  | cons x xs => simp [jitter_nonincreasing, jitterAux_length]

lemma jitterAux_get? (eps : ℚ) :
    ∀ (xs : List FVal) (prev : FVal) (i : ℕ) (c : FVal), xs.get? i = some c →
      (jitterAux eps prev xs).get? i =
        some (jitterStep eps ((prev :: jitterAux eps prev xs).getD i .nonfin) c) := by
  intro xs
  induction xs with
  | nil => intro prev i c hc; simp at hc
  | cons x xs ih =>
      intro prev i c hc
      cases i with
      | zero =>
          obtain rfl : x = c := by simpa using hc
          simp [jitterAux, List.getD]
      | succ i =>
          simp only [List.get?] at hc
          simpa [jitterAux, List.getD] using ih (jitterStep eps prev x) i c hc

lemma jitter_get?_zero (eps : ℚ) (q : List FVal) :
    (jitter_nonincreasing eps q).get? 0 = q.get? 0 := by
  cases q <;> rfl

lemma jitter_get?_succ (eps : ℚ) (q : List FVal) (i : ℕ) (c : FVal)
    (hc : q.get? (i + 1) = some c) :
    (jitter_nonincreasing eps q).get? (i + 1) =
      some (jitterStep eps ((jitter_nonincreasing eps q).getD i .nonfin) c) := by
  cases q with
  | nil => simp at hc
  | cons x xs =>
      simp only [List.get?] at hc
      simpa [jitter_nonincreasing] using jitterAux_get? eps xs x i c hc

lemma jitter_adjacent_fin (eps : ℚ) (heps : 0 < eps) (q : List FVal) (i : ℕ)
    (a b : ℚ) (ha : (jitter_nonincreasing eps q).get? i = some (.fin a))
    (hb : (jitter_nonincreasing eps q).get? (i + 1) = some (.fin b)) : a < b := by
  have hlt : i + 1 < q.length := by
    have hlt' : i + 1 < (jitter_nonincreasing eps q).length :=
      (List.get?_eq_some.mp hb).choose
    rwa [jitter_length] at hlt'
  obtain ⟨c, hc⟩ : ∃ c, q.get? (i + 1) = some c := ⟨_, List.get?_eq_get hlt⟩
  have hstep := jitter_get?_succ eps q i c hc
  rw [hb] at hstep
  have hgetD : (jitter_nonincreasing eps q).getD i .nonfin = .fin a := by
    simp [List.getD_eq_getElem?_getD, ← List.get?_eq_getElem?, ha]
  rw [hgetD] at hstep
  obtain hs := (Option.some.injEq _ _).mp hstep
  cases c with
  | nonfin => simp [jitterStep] at hs
  | fin v =>
      simp only [jitterStep] at hs
      by_cases hle : v ≤ a
      · rw [if_pos hle] at hs
        obtain rfl : a + eps = b := by simpa using hs.symm
        linarith
      · rw [if_neg hle] at hs
        obtain rfl : v = b := by simpa using hs.symm
        linarith [lt_of_not_le hle]

/-- Witness for C1 at the one-row table `[{year := 2020, month := 1,
ws := 8, kw := 50}]`. -/
theorem c1_witness :
    ((2020 : ℤ), [({ year := 2020, month := 1, ws := 8, kw := 50 } : ProdRow)]) ∈
        groupByYear [{ year := 2020, month := 1, ws := 8, kw := 50 }] ∧
    (∃ ys, prepare_yearly_production_df "full_hourly"
        [{ year := 2020, month := 1, ws := 8, kw := 50 }] = .ok ys ∧
      ∃ r ∈ ys, r.year = some 2020 ∧
        r.kwh = (([({ year := 2020, month := 1, ws := 8, kw := 50 } : ProdRow)]).map
          (fun r => r.kw)).sum) :=
  ⟨by decide,
   (c1_yearly_kwh_by_encoding [{ year := 2020, month := 1, ws := 8, kw := 50 }]
      2020 [{ year := 2020, month := 1, ws := 8, kw := 50 }] (by decide)).2.1⟩

/-- **C2.** The quantile smoother never raises to its caller (its embedding
is a total function: every control path of `estimation_quantiles_SWI`
returns a pair).  When the spline fit fails with the errors the first
`except` clause catches (`ValueError` from non-strictly-increasing
quantiles, or `ZeroDivisionError`), the quantiles are jittered and the full
spline-plus-inversion is retried exactly once (two `run_cubic` calls
total), the retry running on `jitterFin quantiles`; if that retry also
fails, the result is `probs_new = linspace 0 1 M2` together with the
all-zero `quantiles_new` of length `M2`. -/
theorem c2_swi_fallback (spl : List ℚ → List ℚ → ℚ → ℚ) (q p : List ℚ)
    (M1 M2 : ℕ)
    (h1 : run_cubic spl q p (linspace 0 1 M2) M1 = .error .valueError ∨
          run_cubic spl q p (linspace 0 1 M2) M1 = .error .zeroDivisionError) :
    swiCubicCalls spl q p M1 M2 = 2 ∧
    (∀ res, run_cubic spl (jitterFin q) p (linspace 0 1 M2) M1 = .ok res →
       estimation_quantiles_SWI spl q p M1 M2 = res) ∧
    (∀ e, run_cubic spl (jitterFin q) p (linspace 0 1 M2) M1 = .error e →
       estimation_quantiles_SWI spl q p M1 M2 =
         (List.replicate M2 0, linspace 0 1 M2)) := by
  obtain h | h := h1 <;>
    exact ⟨by simp only [swiCubicCalls, h],
           fun res hres => by
             simp only [estimation_quantiles_SWI, h, hres],
           fun e he => by
             simp only [estimation_quantiles_SWI, h, he]⟩

/-- Witness for C2: `quantiles = [1, 2, 3]` with mismatched
`probs = [0, 1]` makes both the first spline fit and the jittered retry
raise `ValueError`, so the smoother returns the all-zero fallback after
exactly two `run_cubic` attempts. -/
theorem c2_witness :
    run_cubic (fun _ _ _ => (0 : ℚ)) [1, 2, 3] [0, 1] (linspace 0 1 2) 2 =
      .error .valueError ∧
    run_cubic (fun _ _ _ => (0 : ℚ)) (jitterFin [1, 2, 3]) [0, 1]
      (linspace 0 1 2) 2 = .error .valueError ∧
    swiCubicCalls (fun _ _ _ => (0 : ℚ)) [1, 2, 3] [0, 1] 2 2 = 2 ∧
    estimation_quantiles_SWI (fun _ _ _ => (0 : ℚ)) [1, 2, 3] [0, 1] 2 2 =
      (List.replicate 2 0, linspace 0 1 2) := by
  have h := c2_swi_fallback (fun _ _ _ => (0 : ℚ)) [1, 2, 3] [0, 1] 2 2
    (Or.inl (by decide))
  exact ⟨by decide, by decide, h.1, h.2.2 .valueError (by decide)⟩

/-- **C3.** With `use_swi` disabled, midpoint binning of an ascending
quantile sequence `q` of length `k ≥ 2` produces exactly the `k - 1` values
`(q[i] + q[i+1]) / 2` in order, each paired with its image under the power
curve; in particular `[2, 4, 6, 8]` yields midpoints `[3, 5, 7]` exactly. -/
theorem c3_midpoints_no_swi (spl : List ℚ → List ℚ → ℚ → ℚ) (pc : ℚ → ℚ)
    (probs q : List ℚ) (hk : 2 ≤ q.length) (hasc : strictlyInc q = true) :
    (quantiles_to_kw_midpoints spl pc false probs q).length = q.length - 1 ∧
    (∀ i a b, q.get? i = some a → q.get? (i + 1) = some b →
       (quantiles_to_kw_midpoints spl pc false probs q).get? i =
         some ((a + b) / 2, pc ((a + b) / 2))) ∧
    quantiles_to_kw_midpoints spl pc false probs [2, 4, 6, 8] =
      [(3, pc 3), (5, pc 5), (7, pc 7)] := by
  refine ⟨?_, ?_, ?_⟩
  · simp only [quantiles_to_kw_midpoints, Bool.false_eq_true, if_false,
      List.length_map, List.length_zipWith, List.length_tail]
    omega
  · intro i a b ha hb
    simp only [quantiles_to_kw_midpoints, Bool.false_eq_true, if_false,
      List.get?_map]
    rw [zipWith_self_tail_get? _ q i a b ha hb]
    rw [add_comm a b]
    rfl
  · norm_num [quantiles_to_kw_midpoints]

/-- Witness for C3 at `q = [2, 4, 6, 8]` (index 0). -/
theorem c3_witness :
    2 ≤ ([2, 4, 6, 8] : List ℚ).length ∧
    strictlyInc [2, 4, 6, 8] = true ∧
    (quantiles_to_kw_midpoints (fun _ _ _ => (0 : ℚ)) (fun x => x * 2) false []
        [2, 4, 6, 8]).get? 0 = some ((2 + 4) / 2, (fun x => x * 2) ((2 + 4) / 2)) ∧
    quantiles_to_kw_midpoints (fun _ _ _ => (0 : ℚ)) (fun x => x * 2) false []
        [2, 4, 6, 8] =
      [(3, (fun x => x * 2) 3), (5, (fun x => x * 2) 5), (7, (fun x => x * 2) 7)] := by
  have h := c3_midpoints_no_swi (fun _ _ _ => (0 : ℚ)) (fun x => x * 2) []
    [2, 4, 6, 8] (by decide) (by decide)
  exact ⟨by decide, by decide, h.2.1 0 2 4 rfl rfl, h.2.2⟩

/-- **C4 counterexample.** The claim's final conjunct — "the result
restricted to finite entries is strictly increasing" — fails on the input
`[1, NaN, 0]`: both comparisons involve the non-finite middle entry, so the
jitter pass leaves the array unchanged and its finite entries `[1, 0]`
decrease. -/
theorem c4_counterexample :
    jitter_nonincreasing (1e-5) [FVal.fin 1, FVal.nonfin, FVal.fin 0] =
      [FVal.fin 1, FVal.nonfin, FVal.fin 0] ∧
    strictlyInc (finVals (jitter_nonincreasing (1e-5)
      [FVal.fin 1, FVal.nonfin, FVal.fin 0])) = false := by
  constructor <;>
    norm_num [jitter_nonincreasing, jitterAux, jitterStep, finVals, strictlyInc]

/-- **C4 (amended).** The jitter pass scans left to right and replaces each
element that is `≤` its (already corrected) predecessor by
`predecessor + 1e-5`, skipping any comparison involving a non-finite value
(`jitterStep` is exactly that per-element rule, applied to the corrected
predecessor); `[3.02, 3.02, 3.02, 3.05]` becomes
`[3.02, 3.02001, 3.02002, 3.05]`; and any two *adjacent* finite entries of
the result are strictly increasing (so an all-finite result is strictly
increasing) — though finite entries separated by a non-finite one need not
be, which is what the counterexample forces the original claim to drop. -/
theorem c4_jitter_amended :
    (∀ (q : List FVal) (i : ℕ) (c : FVal), q.get? (i + 1) = some c →
       (jitter_nonincreasing (1e-5) q).get? (i + 1) =
         some (jitterStep (1e-5)
           ((jitter_nonincreasing (1e-5) q).getD i .nonfin) c)) ∧
    (∀ q : List FVal, (jitter_nonincreasing (1e-5) q).get? 0 = q.get? 0 ∧
       (jitter_nonincreasing (1e-5) q).length = q.length) ∧
    jitter_nonincreasing (1e-5)
        [FVal.fin 3.02, FVal.fin 3.02, FVal.fin 3.02, FVal.fin 3.05] =
      [FVal.fin 3.02, FVal.fin 3.02001, FVal.fin 3.02002, FVal.fin 3.05] ∧
    (∀ (q : List FVal) (i : ℕ) (a b : ℚ),
       (jitter_nonincreasing (1e-5) q).get? i = some (.fin a) →
       (jitter_nonincreasing (1e-5) q).get? (i + 1) = some (.fin b) → a < b) := by
  refine ⟨fun q i c hc => jitter_get?_succ _ q i c hc,
          fun q => ⟨jitter_get?_zero _ q, jitter_length _ q⟩, ?_,
          fun q i a b ha hb => jitter_adjacent_fin _ (by norm_num) q i a b ha hb⟩
  norm_num [jitter_nonincreasing, jitterAux, jitterStep]

/-- Witness for C4 (amended) on `[3.02, 3.02]`: the second entry is bumped
to `3.02001` and the adjacent finite pair strictly increases. -/
theorem c4_witness :
    (jitter_nonincreasing (1e-5) [FVal.fin 3.02, FVal.fin 3.02]).get? 0 =
      some (FVal.fin 3.02) ∧
    (jitter_nonincreasing (1e-5) [FVal.fin 3.02, FVal.fin 3.02]).get? 1 =
      some (FVal.fin 3.02001) ∧
    (3.02 : ℚ) < 3.02001 := by
  have h1 : (jitter_nonincreasing (1e-5) [FVal.fin 3.02, FVal.fin 3.02]).get? 0 =
      some (FVal.fin 3.02) := by
    norm_num [jitter_nonincreasing, jitterAux, jitterStep]
  have h2 : (jitter_nonincreasing (1e-5) [FVal.fin 3.02, FVal.fin 3.02]).get? 1 =
      some (FVal.fin 3.02001) := by
    norm_num [jitter_nonincreasing, jitterAux, jitterStep]
  exact ⟨h1, h2, c4_jitter_amended.2.2.2 [FVal.fin 3.02, FVal.fin 3.02] 0
    3.02 3.02001 h1 h2⟩

lemma prepare_ok_sorted {schema : String} {prod : List ProdRow}
    {l : List YearlyRow} (h : prepare_yearly_production_df schema prod = .ok l) :
    List.Pairwise wsLE l := by
  unfold prepare_yearly_production_df at h
  split at h
  · simp at h
  · split at h
    · split at h
      · simp at h
      · exact sorted_of_sortFinish_ok h
    · split at h
      · split at h
        · exact sorted_of_sortFinish_ok h
        · split at h
          · simp only [Except.ok.injEq] at h
            subst h
            exact List.Pairwise.nil
          · exact sorted_of_sortFinish_ok h
      · exact sorted_of_sortFinish_ok h

lemma roundHalfEven_nearest (x : ℚ) :
    |((roundHalfEven x : ℤ) : ℚ) - x| ≤ 1 / 2 := by
  have h0 : (⌊x⌋ : ℚ) ≤ x := Int.floor_le x
  have h1 : x < ⌊x⌋ + 1 := Int.lt_floor_add_one x
  simp only [roundHalfEven]
  split_ifs with hr1 hr2 hpar <;>
    (rw [abs_le]; constructor <;> push_cast <;> linarith)

/-- **C5.** The summary aggregator operates on the yearly rows sorted
ascending by average wind speed (not by kWh): it selects the first row as
"Lowest year", the last row as "Highest year", and synthesizes an
"Average year" row whose wind speed and kWh are the column-wise means
across all yearly rows and whose year field is `None`; each kWh value is
rounded to the nearest integer (half to even — the final conjunct states
the nearest-integer property) and each wind speed is formatted as a
two-decimal string. -/
theorem c5_summary_rows (schema : String) (prod : List ProdRow)
    (yearly : List YearlyRow)
    (hprep : prepare_yearly_production_df schema prod = .ok yearly)
    (hne : yearly ≠ []) :
    List.Pairwise wsLE yearly ∧
    calculate_energy_production_summary schema prod =
      .ok [ ("Lowest year",
              formatSummaryRow (yearly.headD { year := none, avgWs := 0, kwh := 0 })),
            ("Average year",
              { year := none
                avgWsText := format_two_dec (meanQ (yearly.map (fun r => r.avgWs)))
                kwhInt := roundHalfEven (meanQ (yearly.map (fun r => r.kwh))) }),
            ("Highest year",
              formatSummaryRow
                (yearly.getLastD { year := none, avgWs := 0, kwh := 0 })) ] ∧
    (∀ x : ℚ, |((roundHalfEven x : ℤ) : ℚ) - x| ≤ 1 / 2) := by
  refine ⟨prepare_ok_sorted hprep, ?_, roundHalfEven_nearest⟩
  unfold calculate_energy_production_summary
  rw [hprep]
  simp [List.isEmpty_eq_true, hne, formatSummaryRow]

/-- Witness for C5 on the atemporal one-row table
`[{ws := 3, kw := 10}]`. -/
theorem c5_witness :
    prepare_yearly_production_df "quantile_atemporal"
        [{ year := 0, month := 0, ws := 3, kw := 10 }] =
      .ok [{ year := none, avgWs := 3, kwh := 87600 }] ∧
    calculate_energy_production_summary "quantile_atemporal"
        [{ year := 0, month := 0, ws := 3, kw := 10 }] =
      .ok [ ("Lowest year",
              formatSummaryRow { year := none, avgWs := 3, kwh := 87600 }),
            ("Average year",
              { year := none
                avgWsText := format_two_dec (meanQ [3])
                kwhInt := roundHalfEven (meanQ [87600]) }),
            ("Highest year",
              formatSummaryRow { year := none, avgWs := 3, kwh := 87600 }) ] := by
  have hprep : prepare_yearly_production_df "quantile_atemporal"
      [{ year := 0, month := 0, ws := 3, kw := 10 }] =
      .ok [{ year := none, avgWs := 3, kwh := 87600 }] := by
    have hred : prepare_yearly_production_df "quantile_atemporal"
        [{ year := 0, month := 0, ws := 3, kw := 10 }] =
        sortFinish [{ year := none, avgWs := meanQ [3],
                      kwh := meanQ [10] * 8760 }] := rfl
    rw [hred, sortFinish_ok_of_ne_nil (by simp)]
    norm_num [meanQ, List.insertionSort, List.orderedInsert]
  exact ⟨hprep,
    (c5_summary_rows "quantile_atemporal"
      [{ year := 0, month := 0, ws := 3, kw := 10 }]
      [{ year := none, avgWs := 3, kwh := 87600 }] hprep (by simp)).2.1⟩

lemma groupByMonth_mem_ne_nil {m : ℤ} {g prod : List ProdRow}
    (h : (m, g) ∈ groupByMonth prod) : prod ≠ [] := by
  intro he
  subst he
  simp [groupByMonth, intsAsc] at h

/-- **C6.** The monthly aggregator succeeds only on timeseries schemas
(the quantile schemas fail with `UnsupportedOperation`); it groups the
annotated rows by month with `avg_windspeed = mean(ws)` and
`kwh_total = sum(kw)`, fails with `NoData` when the number of distinct
years is zero, and otherwise scales `kwh_total` by `30 / n_years`
(`mohr_encoded`) or `1 / n_years` (`datetime_full`), keying the output by
three-letter month abbreviations (rounding and two-decimal formatting
applied as everywhere in the final dicts). -/
theorem c6_monthly_aggregation (prod : List ProdRow) :
    (calculate_monthly_energy_production "quantile_yearly" prod =
        .error .unsupportedOperation ∧
     calculate_monthly_energy_production "quantile_atemporal" prod =
        .error .unsupportedOperation) ∧
    ((prod.map (fun r => r.year)).dedup.length = 0 →
       calculate_monthly_energy_production "aggregated_mohr" prod =
          .error .noData ∧
       calculate_monthly_energy_production "full_hourly" prod =
          .error .noData) ∧
    (∀ m g, (m, g) ∈ groupByMonth prod →
       (∃ out, calculate_monthly_energy_production "aggregated_mohr" prod =
            .ok out ∧
          (monthAbbrOf m,
            { avgWsText := format_two_dec (meanQ (g.map (fun r => r.ws)))
              kwhInt := roundHalfEven ((g.map (fun r => r.kw)).sum *
                (30 / ((prod.map (fun r => r.year)).dedup.length : ℚ))) }) ∈ out) ∧
       (∃ out, calculate_monthly_energy_production "full_hourly" prod =
            .ok out ∧
          (monthAbbrOf m,
            { avgWsText := format_two_dec (meanQ (g.map (fun r => r.ws)))
              kwhInt := roundHalfEven ((g.map (fun r => r.kw)).sum /
                ((prod.map (fun r => r.year)).dedup.length : ℚ)) }) ∈ out)) := by
  have hredM : calculate_monthly_energy_production "aggregated_mohr" prod =
      (if (prod.map (fun r => r.year)).dedup.length = 0 then .error .noData
       else .ok ((groupByMonth prod).map (fun mg =>
         (monthAbbrOf mg.1,
          { avgWsText := format_two_dec (meanQ (mg.2.map (fun r => r.ws)))
            kwhInt := roundHalfEven ((mg.2.map (fun r => r.kw)).sum *
              (30 / (((prod.map (fun r => r.year)).dedup.length : ℕ) : ℚ))) })))) :=
    rfl
  have hredF : calculate_monthly_energy_production "full_hourly" prod =
      (if (prod.map (fun r => r.year)).dedup.length = 0 then .error .noData
       else .ok ((groupByMonth prod).map (fun mg =>
         (monthAbbrOf mg.1,
          { avgWsText := format_two_dec (meanQ (mg.2.map (fun r => r.ws)))
            kwhInt := roundHalfEven ((mg.2.map (fun r => r.kw)).sum /
              (((prod.map (fun r => r.year)).dedup.length : ℕ) : ℚ)) })))) :=
    rfl
  refine ⟨⟨rfl, rfl⟩, ?_, ?_⟩
  · intro h0
    rw [hredM, hredF, if_pos h0, if_pos h0]
    exact ⟨rfl, rfl⟩
  · intro m g hm
    have hprodne := groupByMonth_mem_ne_nil hm
    have hn : (prod.map (fun r => r.year)).dedup.length ≠ 0 := by
      simp only [ne_eq, List.length_eq_zero, List.dedup_eq_nil, List.map_eq_nil]
      exact hprodne
    constructor
    · rw [hredM, if_neg hn]
      exact ⟨_, rfl, List.mem_map_of_mem _ hm⟩
    · rw [hredF, if_neg hn]
      exact ⟨_, rfl, List.mem_map_of_mem _ hm⟩

/-- Two years of identical January `datetime_full` rows, the concrete
input of the C6 witness. -/
def c6rows : List ProdRow :=
  [{ year := 2001, month := 1, ws := 5, kw := 1000 },
   { year := 2002, month := 1, ws := 5, kw := 1000 }]

/-- Witness for C6: the quantile schema is rejected, and two years of
identical January `datetime_full` rows average to a single January entry
(the claim's `sum = 2000, n_years = 2` example, so the kWh value is
`1000`). -/
theorem c6_witness :
    calculate_monthly_energy_production "quantile_atemporal" [] =
      .error .unsupportedOperation ∧
    ((1 : ℤ), c6rows) ∈ groupByMonth c6rows ∧
    (∃ out, calculate_monthly_energy_production "full_hourly" c6rows =
        .ok out ∧
      (monthAbbrOf 1,
        { avgWsText := format_two_dec (meanQ (c6rows.map (fun r => r.ws)))
          kwhInt := roundHalfEven ((c6rows.map (fun r => r.kw)).sum /
            ((c6rows.map (fun r => r.year)).dedup.length : ℚ)) }) ∈ out) ∧
    roundHalfEven ((c6rows.map (fun r => r.kw)).sum /
      ((c6rows.map (fun r => r.year)).dedup.length : ℚ)) = 1000 := by
  refine ⟨(c6_monthly_aggregation []).1.2, by decide,
    ((c6_monthly_aggregation c6rows).2.2 1 c6rows (by decide)).2, ?_⟩
  have hlen : ((c6rows.map (fun r => r.year)).dedup.length : ℚ) = (2 : ℕ) := by
    norm_num [show (c6rows.map (fun r => r.year)).dedup.length = 2 from by decide]
  rw [hlen]
  norm_num [roundHalfEven, c6rows]

lemma validate_schemaMismatch {cols : List String} {schema : String}
    {cfg : TemporalSchemaCfg} (hcfg : TEMPORAL_SCHEMAS.lookup schema = some cfg)
    (hcond :
      (∃ c ∈ cfg.column_config.temporal_columns ++
          cfg.column_config.probability_columns,
         ¬ (cols.map strLower).contains (strLower c) = true) ∨
      (cfg.column_config.temporal_columns = [] ∧
        ∃ c ∈ ["year", "month", "day", "hour", "time", "mohr"],
          (cols.map strLower).contains c = true)) :
    validate_data_with_temporal_schema cols schema = .error .schemaMismatch := by
  unfold validate_data_with_temporal_schema
  rw [hcfg]
  by_cases hfirst : (cfg.column_config.temporal_columns ++
      cfg.column_config.probability_columns).any
        (fun c => !((cols.map strLower).contains (strLower c))) = true
  · rw [if_pos hfirst]
  · rw [if_neg hfirst]
    rcases hcond with ⟨c, hc, hnc⟩ | ⟨hempty, c, hc, hcc⟩
    · exact absurd (List.any_eq_true.mpr ⟨c, hc, by simpa using hnc⟩) hfirst
    · rw [if_pos ?_]
      rw [Bool.and_eq_true]
      exact ⟨by simp [hempty], List.any_eq_true.mpr ⟨c, hc, hcc⟩⟩

/-- **C7 counterexample.** The claim quantifies over *every* call, but a
call with a `None` input table and an empty heights list returns the
passthrough result instead of failing with `InvalidArgument`: the
None/empty guard runs before every precondition check. -/
theorem c7_counterexample :
    compute_energy_production_df none [] "era5-timeseries" =
      .ok (.passthrough none) ∧
    compute_energy_production_df none [] "era5-timeseries" ≠
      .error .invalidArgument := by
  exact ⟨rfl, by decide⟩

/-- **C7 (amended).** For every call whose input table is present and
non-empty: an empty heights sequence fails with `InvalidArgument`; a
missing `windspeed_{h}m` column for a requested height fails with
`MissingColumn`; and — the windspeed columns being present and the model
known — a table missing a required temporal or probability column of its
schema, or a table for a schema without temporal columns that contains any
of the temporal columns `year/month/day/hour/time/mohr`, fails with
`SchemaMismatch`. -/
theorem c7_entry_errors (d : PyDF) (heights : List ℤ) (model_name : String)
    (hrows : d.nrows ≠ 0) :
    (heights = [] →
       compute_energy_production_df (some d) heights model_name =
         .error .invalidArgument) ∧
    (heights ≠ [] → (∃ h ∈ heights, ¬ d.cols.contains (wsColName h) = true) →
       compute_energy_production_df (some d) heights model_name =
         .error .missingColumn) ∧
    (∀ schema cfg, heights ≠ [] →
       (∀ h ∈ heights, d.cols.contains (wsColName h) = true) →
       MODEL_CONFIG.lookup model_name = some schema →
       TEMPORAL_SCHEMAS.lookup schema = some cfg →
       ((∃ c ∈ cfg.column_config.temporal_columns ++
            cfg.column_config.probability_columns,
          ¬ (d.cols.map strLower).contains (strLower c) = true) ∨
        (cfg.column_config.temporal_columns = [] ∧
          ∃ c ∈ ["year", "month", "day", "hour", "time", "mohr"],
            (d.cols.map strLower).contains c = true)) →
       compute_energy_production_df (some d) heights model_name =
         .error .schemaMismatch) := by
  have hstep : compute_energy_production_df (some d) heights model_name =
      (if d.nrows = 0 then .ok (.passthrough (some d))
       else if heights.isEmpty then .error .invalidArgument
       else if (heights.map wsColName).any (fun c => !(d.cols.contains c)) then
         .error .missingColumn
       else
         match MODEL_CONFIG.lookup model_name with
         | none => .error .valueError
         | some schema =>
           match validate_data_with_temporal_schema d.cols schema with
           | .error e => .error e
           | .ok _ => .ok (.annotated d schema)) := rfl
  rw [hstep, if_neg hrows]
  refine ⟨?_, ?_, ?_⟩
  · intro h
    subst h
    rfl
  · intro hne hex
    have hie : heights.isEmpty = false := by
      cases heights with
      | nil => exact absurd rfl hne
      | cons a l => rfl
    have hany : (heights.map wsColName).any
        (fun c => !(d.cols.contains c)) = true := by
      rw [List.any_eq_true]
      obtain ⟨h, hh, hmem⟩ := hex
      exact ⟨wsColName h, List.mem_map_of_mem _ hh, by simpa using hmem⟩
    simp only [hie, Bool.false_eq_true, if_false, hany, if_true]
  · intro schema cfg hne hall hlookup hcfg hcond
    have hie : heights.isEmpty = false := by
      cases heights with
      | nil => exact absurd rfl hne
      | cons a l => rfl
    have hany : (heights.map wsColName).any
        (fun c => !(d.cols.contains c)) = false := by
      rw [List.any_eq_false]
      intro c hc
      obtain ⟨h, hh, rfl⟩ := List.mem_map.mp hc
      simpa using hall h hh
    have hval := validate_schemaMismatch hcfg hcond
    simp only [hie, Bool.false_eq_true, if_false, hany, hlookup, hval]

/-- Witness for C7 (amended): a one-column non-empty frame hits each of the
three errors under the respective hypotheses. -/
theorem c7_witness :
    compute_energy_production_df (some ⟨["windspeed_100m"], 5⟩) []
      "era5-timeseries" = .error .invalidArgument ∧
    compute_energy_production_df (some ⟨["windspeed_100m"], 5⟩) [80]
      "era5-timeseries" = .error .missingColumn ∧
    compute_energy_production_df (some ⟨["windspeed_100m"], 5⟩) [100]
      "era5-timeseries" = .error .schemaMismatch := by
  refine ⟨(c7_entry_errors ⟨["windspeed_100m"], 5⟩ [] "era5-timeseries"
      (by decide)).1 rfl, ?_, ?_⟩
  · exact (c7_entry_errors ⟨["windspeed_100m"], 5⟩ [80] "era5-timeseries"
      (by decide)).2.1 (by decide) ⟨80, by decide, by decide⟩
  · exact (c7_entry_errors ⟨["windspeed_100m"], 5⟩ [100] "era5-timeseries"
      (by decide)).2.2 "full_hourly" _ (by decide)
      (by intro h hh; fin_cases hh <;> decide) rfl rfl
      (Or.inl ⟨"time", by decide, by decide⟩)

/-- **C10.** When the input table is `None` or empty, the energy production
computation returns the input table itself (tagged `passthrough`, not an
annotated `(table, schema)` pair), and none of the precondition checks
run: the result is the same `ok` passthrough for every heights list, every
model name and every column set, so empty heights, missing windspeed
columns or schema mismatches cannot raise. -/
theorem c10_none_empty_passthrough (heights : List ℤ) (model_name : String) :
    compute_energy_production_df none heights model_name =
      .ok (.passthrough none) ∧
    (∀ d : PyDF, d.nrows = 0 →
       compute_energy_production_df (some d) heights model_name =
         .ok (.passthrough (some d))) := by
  refine ⟨rfl, fun d hd => ?_⟩
  have hstep : compute_energy_production_df (some d) heights model_name =
      (if d.nrows = 0 then .ok (.passthrough (some d))
       else if heights.isEmpty then .error .invalidArgument
       else if (heights.map wsColName).any (fun c => !(d.cols.contains c)) then
         .error .missingColumn
       else
         match MODEL_CONFIG.lookup model_name with
         | none => .error .valueError
         | some schema =>
           match validate_data_with_temporal_schema d.cols schema with
           | .error e => .error e
           | .ok _ => .ok (.annotated d schema)) := rfl
  rw [hstep, if_pos hd]

/-- Witness for C10: an empty frame missing every windspeed column, an
empty heights list and a known model still give the passthrough result. -/
theorem c10_witness :
    compute_energy_production_df none [] "wtk-timeseries" =
      .ok (.passthrough none) ∧
    compute_energy_production_df (some ⟨["mohr"], 0⟩) [] "wtk-timeseries" =
      .ok (.passthrough (some ⟨["mohr"], 0⟩)) :=
  ⟨(c10_none_empty_passthrough [] "wtk-timeseries").1,
   (c10_none_empty_passthrough [] "wtk-timeseries").2 ⟨["mohr"], 0⟩ rfl⟩

/-- **C8.** For every table normalized under the `mohr_encoded` schema
whose temporal dimensions are not already all present, the normalizer
derives, row by row, `month = mohr // 100` (floor division) and
`hour = mohr % 100` (nonnegative remainder) from the numeric `mohr`
column; and a schema whose encoding is neither `datetime_full` nor
`mohr_encoded` (the quantile schemas' `None`) fails with
`ConfigurationError` when it reaches the encoding dispatch. -/
theorem c8_mohr_normalization (df : NTable)
    (hnot : (["month", "hour", "year"].all
      (fun c => (df.cols.map strLower).contains c)) = false) :
    (∃ r, add_temporal_dimensions "aggregated_mohr" df = .ok r ∧
       r.monthCol = df.mohrCol.map (fun v => Int.fdiv v 100) ∧
       r.hourCol = df.mohrCol.map (fun v => Int.emod v 100) ∧
       r.mohrCol = df.mohrCol) ∧
    (∀ df2 : NTable,
       (["year"].all (fun c => (df2.cols.map strLower).contains c)) = false →
       add_temporal_dimensions "quantile_yearly" df2 =
         .error .configurationError) := by
  constructor
  · have hred : add_temporal_dimensions "aggregated_mohr" df =
        (if ["month", "hour", "year"].all
            (fun c => (df.cols.map strLower).contains c) then .ok df
         else .ok { df with
                    cols := addCol (addCol df.cols "month") "hour"
                    monthCol := df.mohrCol.map (fun v => Int.fdiv v 100)
                    hourCol := df.mohrCol.map (fun v => Int.emod v 100) }) := rfl
    rw [hred]
    simp only [hnot, Bool.false_eq_true, if_false]
    exact ⟨_, rfl, rfl, rfl, rfl⟩
  · intro df2 hnot2
    have hred2 : add_temporal_dimensions "quantile_yearly" df2 =
        (if ["year"].all (fun c => (df2.cols.map strLower).contains c) then
           .ok df2
         else .error .configurationError) := rfl
    rw [hred2]
    simp only [hnot2, Bool.false_eq_true, if_false]

/-- Witness for C8: a `[mohr, year, windspeed_100m]` frame with
`mohr = [101, 1223]` gets `month = [1, 12]` and `hour = [1, 23]`; and a
frame without a `year` column fails for the encoding-less
`quantile_yearly` schema. -/
theorem c8_witness :
    (["month", "hour", "year"].all (fun c =>
      ((["mohr", "year", "windspeed_100m"].map strLower)).contains c)) = false ∧
    (∃ r, add_temporal_dimensions "aggregated_mohr"
        ⟨["mohr", "year", "windspeed_100m"], [], [101, 1223], [], [], [], []⟩ =
          .ok r ∧
       r.monthCol = [(101 : ℤ), 1223].map (fun v => Int.fdiv v 100) ∧
       r.hourCol = [(101 : ℤ), 1223].map (fun v => Int.emod v 100) ∧
       r.mohrCol = [(101 : ℤ), 1223]) ∧
    [(101 : ℤ), 1223].map (fun v => Int.fdiv v 100) = [1, 12] ∧
    [(101 : ℤ), 1223].map (fun v => Int.emod v 100) = [1, 23] ∧
    add_temporal_dimensions "quantile_yearly"
        ⟨["probability", "windspeed_100m"], [], [], [], [], [], []⟩ =
      .error .configurationError :=
  ⟨by decide,
   (c8_mohr_normalization
     ⟨["mohr", "year", "windspeed_100m"], [], [101, 1223], [], [], [], []⟩
     (by decide)).1,
   by decide, by decide,
   (c8_mohr_normalization
     ⟨["mohr", "year", "windspeed_100m"], [], [101, 1223], [], [], [], []⟩
     (by decide)).2
     ⟨["probability", "windspeed_100m"], [], [], [], [], [], []⟩ (by decide)⟩

lemma argminGo_lt :
    ∀ (xs : List ℚ) (bv : ℚ) (best i : ℕ), best < i →
      argminGo xs bv best i < i + xs.length := by
  intro xs
  induction xs with
  | nil => intro bv best i h; simpa [argminGo] using h
  | cons x t ih =>
      intro bv best i h
      simp only [argminGo, List.length_cons]
      split_ifs
      · have := ih x i (i + 1) (Nat.lt_succ_self i)
        omega
      · have := ih bv best (i + 1) (Nat.lt_succ_of_lt h)
        omega

lemma argminIdx_lt {l : List ℚ} (h : l ≠ []) : argminIdx l < l.length := by
  cases l with
  | nil => exact absurd rfl h
  | cons x xs =>
      have := argminGo_lt xs x 0 1 Nat.one_pos
      simpa [argminIdx, Nat.add_comm] using this

lemma linspace_length (a b : ℚ) (n : ℕ) : (linspace a b n).length = n := by
  unfold linspace
  split_ifs with h0 h1
  · simp [h0]
  · simp [h1]
  · rw [List.length_map, List.length_range]

lemma find_inverse_subset {xs ys yhat : List ℚ} (hne : xs ≠ [])
    (hl : ys.length = xs.length) :
    ∀ v ∈ find_inverse xs ys yhat, v ∈ xs := by
  intro v hv
  unfold find_inverse at hv
  obtain ⟨t, ht, rfl⟩ := List.mem_map.mp hv
  have hysne : ys.map (fun y => |y - t|) ≠ [] := by
    simp only [ne_eq, List.map_eq_nil_iff]
    intro hys
    subst hys
    simp only [List.length_nil] at hl
    exact hne (List.length_eq_zero.mp hl.symm)
  have hidx : argminIdx (ys.map (fun y => |y - t|)) < xs.length := by
    have := argminIdx_lt hysne
    simpa [hl] using this
  rw [List.getD_eq_getElem?_getD, List.getElem?_eq_getElem hidx]
  simpa using List.getElem_mem xs _ hidx

lemma find_inverse_length (xs ys yhat : List ℚ) :
    (find_inverse xs ys yhat).length = yhat.length := by
  simp [find_inverse]

/-- **C9.** For every strictly increasing quantile array with at least 4
points and probabilities in `[0, 1]` (one probability per quantile, per the
smoother's contract), the smoother returns `probs_new` exactly
`linspace 0 1 501` and a `quantiles_new` of length `501` each of whose
values is drawn — by nearest-neighbour inversion — from the dense grid of
`M1 = 1000` points between the least and greatest quantile (in the
rational embedding every such grid value is finite). -/
theorem c9_swi_dense_grid (spl : List ℚ → List ℚ → ℚ → ℚ) (q p : List ℚ)
    (hlen : 4 ≤ q.length) (hmono : strictlyInc q = true)
    (hplen : p.length = q.length) (hp : ∀ x ∈ p, 0 ≤ x ∧ x ≤ 1) :
    ∃ qn, estimation_quantiles_SWI spl q p 1000 501 =
        (qn, linspace 0 1 501) ∧
      qn.length = 501 ∧
      ∀ v ∈ qn, v ∈ linspace (q.headD 0) (q.getLastD 0) 1000 := by
  have hnotshort : ¬ (q.length < 2 ∨ p.length < 2) := by
    rw [hplen]
    omega
  have hok : ¬ ¬ (strictlyInc q = true ∧ q.length = p.length) :=
    not_not_intro ⟨hmono, hplen.symm⟩
  have hrc : run_cubic spl q p (linspace 0 1 501) 1000 =
      .ok (find_inverse (linspace (q.headD 0) (q.getLastD 0) 1000)
             ((linspace (q.headD 0) (q.getLastD 0) 1000).map (spl q p))
             (linspace 0 1 501),
           linspace 0 1 501) := by
    unfold run_cubic
    rw [if_neg hnotshort, if_neg hok]
  have hswi : estimation_quantiles_SWI spl q p 1000 501 =
      (find_inverse (linspace (q.headD 0) (q.getLastD 0) 1000)
         ((linspace (q.headD 0) (q.getLastD 0) 1000).map (spl q p))
         (linspace 0 1 501),
       linspace 0 1 501) := by
    simp only [estimation_quantiles_SWI, hrc]
  refine ⟨_, hswi, ?_, ?_⟩
  · rw [find_inverse_length, linspace_length]
  · have hxne : linspace (q.headD 0) (q.getLastD 0) 1000 ≠ [] := by
      intro h
      have := linspace_length (q.headD 0) (q.getLastD 0) 1000
      rw [h] at this
      simp at this
    exact find_inverse_subset hxne (List.length_map _ _)

/-- Witness for C9 at `q = [1, 2, 3, 4]`, `p = [0, 0, 1, 1]`. -/
theorem c9_witness :
    4 ≤ ([1, 2, 3, 4] : List ℚ).length ∧
    strictlyInc [1, 2, 3, 4] = true ∧
    ([(0 : ℚ), 0, 1, 1]).length = ([1, 2, 3, 4] : List ℚ).length ∧
    (∃ qn, estimation_quantiles_SWI (fun _ _ _ => (0 : ℚ)) [1, 2, 3, 4]
        [0, 0, 1, 1] 1000 501 = (qn, linspace 0 1 501) ∧
      qn.length = 501 ∧
      ∀ v ∈ qn, v ∈ linspace (([1, 2, 3, 4] : List ℚ).headD 0)
        (([1, 2, 3, 4] : List ℚ).getLastD 0) 1000) :=
  ⟨by decide, by decide, by decide,
   c9_swi_dense_grid (fun _ _ _ => (0 : ℚ)) [1, 2, 3, 4] [0, 0, 1, 1]
     (by decide) (by decide) (by decide)
     (by intro x hx; simp only [List.mem_cons, List.not_mem_nil, or_false] at hx
         rcases hx with rfl | rfl | rfl | rfl <;> norm_num)⟩

end Windwatts
